import Mathlib

/-!
Verification of the `ssb-project-cli` build/create pipeline against its
specification.  Python functions from `src/ssb_project_cli/ssb_project` are
shallowly embedded as executable Lean definitions: file systems become
explicit maps, subprocess side effects become traces, and fatal exits become
explicit outcome values.  Theorems below settle the specification claims.
-/

/-- Truthiness of a Python string: `bool(s)` is `True` exactly when `s` is
non-empty. -/
def pyTruthy (s : String) : Bool := !(s == "")

/-- Python `needle in hay` on strings: substring containment. -/
def pyIn (needle hay : String) : Bool := decide (needle.data <:+: hay.data)

/-- Python `s.endswith(suffix)`. -/
def pyEndsWith (s suf : String) : Bool := decide (suf.data <:+ s.data)

theorem pyEndsWith_append (d s : String) : pyEndsWith (d ++ s) s = true := by
  have h : (d ++ s).data = d.data ++ s.data := rfl
  simp [pyEndsWith, h, List.suffix_append]

/-! ## Package Source Manager (`build/poetry.py`, `app.py` lines 397-406)

`should_update_lock_file(source_url, cwd)` reads `poetry.lock` in `cwd`; we
model the lock file as `Option String` (`none` when `poetry.lock` does not
exist, `some content` otherwise). -/

/-- Embedding of `should_update_lock_file` from `build/poetry.py`: if the
lock file exists and its text contains `source_url` return `False`; if it
does not exist return `False`; otherwise return `True`. -/
def should_update_lock_file (source_url : String) (lockFile : Option String) : Bool :=
  match lockFile with
  | some content => if pyIn source_url content then false else true
  | none => false

/-- Operations the `build` command may perform on the poetry package source,
in the order the Python code performs them. -/
inductive SourceOp where
  | add
  | remove
  | includesCheck
deriving DecidableEq, Repr

/-- Embedding of the package-source toggle in `app.py` `build`
(lines 397-406): when on-prem, call `poetry_source_add`; otherwise evaluate
`poetry_source_includes_source_name` and, when it is true, call
`poetry_source_remove`.  The result is the trace of source operations. -/
def build_source_toggle (onprem source_included : Bool) : List SourceOp :=
  if onprem then
    [SourceOp.add]
  else if source_included then
    [SourceOp.includesCheck, SourceOp.remove]
  else
    [SourceOp.includesCheck]

/-- Counts of add / remove / includes-check operations in a trace, in that
order. -/
def opCounts (ops : List SourceOp) : Nat × Nat × Nat :=
  (ops.count SourceOp.add, ops.count SourceOp.remove, ops.count SourceOp.includesCheck)

/-! ## `handle_no_kernel_argument` (`util.py` lines 242-262)

The `NO_KERNEL` environment variable is modelled as `Option String`; a call
to `exit(1)` becomes the `exited` outcome. -/

/-- Result of `handle_no_kernel_argument`: either a returned boolean or a
program termination with an exit code. -/
inductive NoKernelOutcome where
  | ret (b : Bool)
  | exited (code : Nat)
deriving DecidableEq, Repr

/-- Embedding of `handle_no_kernel_argument` from `util.py`: the CLI flag
wins; otherwise an unset `NO_KERNEL` yields `False`; a value other than
`"True"`/`"False"` terminates with exit code 1; otherwise Python returns
`bool(value)`, the truthiness of the string. -/
def handle_no_kernel_argument (no_kernel : Bool) (env_no_kernel : Option String) :
    NoKernelOutcome :=
  if no_kernel then
    NoKernelOutcome.ret no_kernel
  else
    match env_no_kernel with
    | none => NoKernelOutcome.ret false
    | some v =>
      if ¬(v = "True" ∨ v = "False") then NoKernelOutcome.exited 1
      else NoKernelOutcome.ret (pyTruthy v)

/-! ## Theorems for claims C2, C4, C10 -/

/-- C4: `should_update_lock_file` returns false when the lock file exists and
contains the literal source URL, false when the lock file does not exist, and
true when the lock file exists but does not contain the URL. -/
theorem claim_C4_lock_refresh_gating (url : String) :
    should_update_lock_file url none = false ∧
    (∀ c, pyIn url c = true → should_update_lock_file url (some c) = false) ∧
    (∀ c, pyIn url c = false → should_update_lock_file url (some c) = true) := by
  refine ⟨rfl, ?_, ?_⟩ <;> intro c h <;> simp [should_update_lock_file, h]

/-- Witness for C4 at a concrete URL and lock file contents. -/
theorem claim_C4_lock_refresh_gating_witness :
    should_update_lock_file "https://nexus.example/simple"
      (some "url = https://nexus.example/simple") = false ∧
    should_update_lock_file "https://nexus.example/simple"
      (some "url = https://pypi.org/simple") = true :=
  ⟨(claim_C4_lock_refresh_gating "https://nexus.example/simple").2.1 _ (by decide),
   (claim_C4_lock_refresh_gating "https://nexus.example/simple").2.2 _ (by decide)⟩

/-- C2 counterexample: the claimed matrix, read with counts in the order
[add, remove, includes-check], does not match the code.  Already at
(on-prem = false, registered = false) the code performs no add and one
includes-check, not one add and no includes-check; and at
(on-prem = true, registered = true) it performs no remove at all. -/
theorem claim_C2_source_toggle_counterexample :
    ¬(opCounts (build_source_toggle false false) = (1, 0, 0) ∧
      opCounts (build_source_toggle true false) = (0, 1, 0) ∧
      opCounts (build_source_toggle true true) = (0, 1, 0) ∧
      opCounts (build_source_toggle false true) = (1, 0, 1)) := by
  decide

/-- C2 amended: the four tuples of the claim are correct only when read as
[includes-check, add, remove] counts; in particular when on-prem (whether or
not the source is registered) the toggle performs exactly one add and never
removes the source or queries the source list. -/
theorem claim_C2_source_toggle_matrix :
    (let ops := build_source_toggle false false
     (ops.count SourceOp.includesCheck, ops.count SourceOp.add,
      ops.count SourceOp.remove) = (1, 0, 0)) ∧
    (let ops := build_source_toggle true false
     (ops.count SourceOp.includesCheck, ops.count SourceOp.add,
      ops.count SourceOp.remove) = (0, 1, 0)) ∧
    (let ops := build_source_toggle true true
     (ops.count SourceOp.includesCheck, ops.count SourceOp.add,
      ops.count SourceOp.remove) = (0, 1, 0)) ∧
    (let ops := build_source_toggle false true
     (ops.count SourceOp.includesCheck, ops.count SourceOp.add,
      ops.count SourceOp.remove) = (1, 0, 1)) ∧
    build_source_toggle true true = [SourceOp.add] := by
  decide

/-- C10: with the CLI flag false, `handle_no_kernel_argument` returns `True`
for both accepted values `"True"` and `"False"` of `NO_KERNEL` (string
truthiness, not the parsed boolean), returns `False` only when `NO_KERNEL` is
unset, and terminates with exit code 1 for any other value. -/
theorem claim_C10_no_kernel_env (v : String) :
    handle_no_kernel_argument false (some "True") = NoKernelOutcome.ret true ∧
    handle_no_kernel_argument false (some "False") = NoKernelOutcome.ret true ∧
    handle_no_kernel_argument false none = NoKernelOutcome.ret false ∧
    (∀ e, handle_no_kernel_argument false e = NoKernelOutcome.ret false → e = none) ∧
    (v ≠ "True" → v ≠ "False" →
      handle_no_kernel_argument false (some v) = NoKernelOutcome.exited 1) := by
  refine ⟨by decide, by decide, by decide, ?_, ?_⟩
  · intro e h
    match e with
    | none => rfl
    | some w =>
      by_cases hw : w = "True" ∨ w = "False"
      · rcases hw with hw | hw <;> subst hw <;> simp [handle_no_kernel_argument, pyTruthy] at h
      · simp [handle_no_kernel_argument, hw] at h
  · intro h1 h2
    simp [handle_no_kernel_argument, h1, h2]

/-- Witness for C10: a concrete invalid value terminates the program. -/
theorem claim_C10_no_kernel_env_witness :
    handle_no_kernel_argument false (some "yes") = NoKernelOutcome.exited 1 :=
  (claim_C10_no_kernel_env "yes").2.2.2.2 (by decide) (by decide)

/-! ## Git Config Reconciler (`build/environment.py` lines 26-85)

The local project directory is modelled as a partial map from file name to
file contents (`none` means the file does not exist); the freshly cloned
template copy always has both tracked files, so it is a total map. -/

/-- Splitting a character list on the newline character, accumulating the
current line in reverse; mirrors Python `str.split("\n")`. -/
def splitLinesAux : List Char → List Char → List String
  | [], acc => [⟨acc.reverse⟩]
  | c :: cs, acc =>
    if c = '\n' then ⟨acc.reverse⟩ :: splitLinesAux cs []
    else splitLinesAux cs (c :: acc)

/-- Python `str.strip()`: drop leading and trailing whitespace. -/
def pyStrip (l : List Char) : List Char :=
  ((l.dropWhile Char.isWhitespace).reverse.dropWhile Char.isWhitespace).reverse

/-- Lines of a file as Python computes them in
`_local_file_contains_remote_lines`: `content.strip().split("\n")`. -/
def fileLines (content : String) : List String :=
  splitLinesAux (pyStrip content.data) []

/-- Embedding of `_local_file_contains_remote_lines`: the set of lines of the
remote file is a subset of the set of lines of the local file. -/
def local_file_contains_remote_lines (localContent remoteContent : String) : Bool :=
  (fileLines remoteContent).all fun l => decide (l ∈ fileLines localContent)

/-- The two tracked configuration files of `verify_local_config`. -/
def trackedConfigFiles : List String := [".gitattributes", ".gitignore"]

/-- Embedding of `verify_local_config` from `build/environment.py`: for each
tracked file, fail if the local file does not exist, fail if the local file
misses a line of the template copy, otherwise succeed. -/
def verify_local_config (localFs : String → Option String)
    (remoteFs : String → String) : Bool :=
  trackedConfigFiles.all fun fp =>
    match localFs fp with
    | none => false
    | some lc => local_file_contains_remote_lines lc (remoteFs fp)

/-- Pointwise update of a local directory: file `k` now has contents `v`. -/
def updateFs (f : String → Option String) (k v : String) : String → Option String :=
  fun x => if x = k then some v else f x

theorem local_file_contains_remote_lines_iff (lc rc : String) :
    local_file_contains_remote_lines lc rc = true ↔
      ∀ l ∈ fileLines rc, l ∈ fileLines lc := by
  simp [local_file_contains_remote_lines]

theorem verify_local_config_iff (localFs : String → Option String)
    (remoteFs : String → String) :
    verify_local_config localFs remoteFs = true ↔
      ∀ fp ∈ trackedConfigFiles, ∃ lc, localFs fp = some lc ∧
        ∀ l ∈ fileLines (remoteFs fp), l ∈ fileLines lc := by
  unfold verify_local_config
  rw [List.all_eq_true]
  constructor
  · intro h fp hfp
    have := h fp hfp
    cases hl : localFs fp with
    | none => rw [hl] at this; cases this
    | some lc =>
      rw [hl] at this
      exact ⟨lc, rfl, (local_file_contains_remote_lines_iff lc (remoteFs fp)).1 this⟩
  · intro h fp hfp
    obtain ⟨lc, hl, hsub⟩ := h fp hfp
    rw [hl]
    exact (local_file_contains_remote_lines_iff lc (remoteFs fp)).2 hsub

/-- C1: `verify_local_config` is true iff for both tracked files the local
file exists and its line set contains every template line; replacing a local
file with one missing a required line makes the result false; and replacing a
local file with one whose line set contains the old line set preserves a true
result. -/
theorem claim_C1_superset_invariant (localFs : String → Option String)
    (remoteFs : String → String) :
    (verify_local_config localFs remoteFs = true ↔
      ∀ fp ∈ trackedConfigFiles, ∃ lc, localFs fp = some lc ∧
        ∀ l ∈ fileLines (remoteFs fp), l ∈ fileLines lc) ∧
    (∀ fp ∈ trackedConfigFiles, ∀ r ∈ fileLines (remoteFs fp), ∀ lc2,
      r ∉ fileLines lc2 →
      verify_local_config (updateFs localFs fp lc2) remoteFs = false) ∧
    (∀ fp ∈ trackedConfigFiles, ∀ lc lc2, localFs fp = some lc →
      (∀ l ∈ fileLines lc, l ∈ fileLines lc2) →
      verify_local_config localFs remoteFs = true →
      verify_local_config (updateFs localFs fp lc2) remoteFs = true) := by
  refine ⟨verify_local_config_iff localFs remoteFs, ?_, ?_⟩
  · intro fp hfp r hr lc2 hnot
    by_contra hne
    have htrue : verify_local_config (updateFs localFs fp lc2) remoteFs = true := by
      cases h : verify_local_config (updateFs localFs fp lc2) remoteFs
      · exact absurd h hne
      · rfl
    obtain ⟨lc, hl, hsub⟩ :=
      (verify_local_config_iff (updateFs localFs fp lc2) remoteFs).1 htrue fp hfp
    have : (updateFs localFs fp lc2) fp = some lc2 := by simp [updateFs]
    rw [this] at hl
    injection hl with hl
    subst hl
    exact hnot (hsub r hr)
  · intro fp hfp lc lc2 hl hmono htrue
    rw [verify_local_config_iff] at htrue ⊢
    intro fq hfq
    obtain ⟨lq, hlq, hsubq⟩ := htrue fq hfq
    by_cases heq : fq = fp
    · subst heq
      refine ⟨lc2, by simp [updateFs], ?_⟩
      rw [hl] at hlq
      injection hlq with hlq
      subst hlq
      exact fun l hlm => hmono l (hsubq l hlm)
    · exact ⟨lq, by simp [updateFs, heq, hlq], hsubq⟩

/-- Witness for C1 at a concrete directory: a compliant project turns
non-compliant when a required line is removed from `.gitignore`, and stays
compliant when extra lines are added. -/
theorem claim_C1_superset_invariant_witness :
    verify_local_config
      (updateFs (fun _ => some "core\ndata") ".gitignore" "data")
      (fun _ => "core") = false ∧
    verify_local_config
      (updateFs (fun _ => some "core\ndata") ".gitignore" "core\ndata\nextra")
      (fun _ => "core") = true := by
  constructor
  · exact (claim_C1_superset_invariant (fun _ => some "core\ndata") (fun _ => "core")).2.1
      ".gitignore" (by decide) "core" (by decide) "data" (by decide)
  · exact (claim_C1_superset_invariant (fun _ => some "core\ndata") (fun _ => "core")).2.2
      ".gitignore" (by decide) "core\ndata" "core\ndata\nextra" rfl (by decide) (by decide)

/-! ## Kernel Patcher (`build/build.py` lines 107-196)

The kernel registry is an association list from kernel name to a
`KernelInfo` describing the kernel resource directory, the existence of that
directory and of its `kernel.json` descriptor on disk, and the descriptor's
launch argument list.  `sys.exit(c)` becomes an explicit exit code and file
writes become a trace of written paths. -/

/-- On-disk state of one installed kernel as `ipykernel_attach_bashrc`
observes it. -/
structure KernelInfo where
  resource_dir : String
  resourceDirExists : Bool
  descriptorExists : Bool
  argv : List String
deriving DecidableEq, Repr

/-- Which branch of `ipykernel_attach_bashrc` was taken; the four failure
constructors stand for the four distinct fatal messages the code prints. -/
inductive AttachStep where
  | kernelNotFound
  | resourceDirMissing
  | descriptorMissing
  | noPythonEntry
  | alreadyPatched
  | patchedOk
deriving DecidableEq, Repr

/-- Observable result of `ipykernel_attach_bashrc`: the branch taken, the
exit code passed to `sys.exit` (`none` when the function returns normally),
and the paths of the files written. -/
structure AttachResult where
  step : AttachStep
  exitCode : Option Nat
  writes : List String
deriving DecidableEq, Repr

/-- Python `kernels[name]` lookup on the registry association list. -/
def lookupKernel (kernels : List (String × KernelInfo)) (name : String) :
    Option KernelInfo :=
  (kernels.find? fun kv => kv.1 == name).map (·.2)

/-- Entry pattern of `_get_python_executable_path`: the regular expression
matches entries ending in `/python3`, `/python` or `/python.sh`. -/
def isPythonEntry (entry : String) : Bool :=
  pyEndsWith entry "/python3" || pyEndsWith entry "/python" || pyEndsWith entry "/python.sh"

/-- Embedding of `_get_python_executable_path` from `build/build.py`: the
first launch argument matching the interpreter pattern, if any. -/
def get_python_executable_path (argv : List String) : Option String :=
  (argv.filter isPythonEntry).head?

/-- Launch arguments written by the patch step of `ipykernel_attach_bashrc`:
the wrapper script followed by the ipykernel launcher arguments. -/
def patchedArgv (resource_dir : String) : List String :=
  [resource_dir ++ "/python.sh", "-m", "ipykernel_launcher", "-f", "{connection_file}"]

/-- Embedding of `ipykernel_attach_bashrc` from `build/build.py`: validate
the kernel name, the resource directory, the descriptor file and the launch
arguments in this order, exiting with status 1 on each failure; exit with
status 0 without writing when the interpreter entry is already the wrapper
script; otherwise rewrite the descriptor and write the wrapper script. -/
def ipykernel_attach_bashrc (kernels : List (String × KernelInfo))
    (project_name : String) : AttachResult :=
  match lookupKernel kernels project_name with
  | none => ⟨AttachStep.kernelNotFound, some 1, []⟩
  | some info =>
    if !info.resourceDirExists then
      ⟨AttachStep.resourceDirMissing, some 1, []⟩
    else if !info.descriptorExists then
      ⟨AttachStep.descriptorMissing, some 1, []⟩
    else
      match get_python_executable_path info.argv with
      | none => ⟨AttachStep.noPythonEntry, some 1, []⟩
      | some p =>
        if pyEndsWith p "/python.sh" then
          ⟨AttachStep.alreadyPatched, some 0, []⟩
        else
          ⟨AttachStep.patchedOk, none,
            [info.resource_dir ++ "/kernel.json", info.resource_dir ++ "/python.sh"]⟩

/-- Registry state after a successful patch of kernel `name`: its descriptor
now holds the launch arguments the tool wrote. -/
def afterPatch (kernels : List (String × KernelInfo)) (name : String) :
    List (String × KernelInfo) :=
  kernels.map fun kv =>
    if kv.1 == name then (kv.1, { kv.2 with argv := patchedArgv kv.2.resource_dir })
    else kv

theorem lookupKernel_afterPatch (kernels : List (String × KernelInfo)) (name : String) :
    lookupKernel (afterPatch kernels name) name =
      (lookupKernel kernels name).map
        (fun info => { info with argv := patchedArgv info.resource_dir }) := by
  induction kernels with
  | nil => rfl
  | cons kv rest ih =>
    by_cases h : kv.1 = name
    · simp [lookupKernel, afterPatch, List.find?, h]
    · have hb : (kv.1 == name) = false := by simp [h]
      simp only [lookupKernel, afterPatch, List.map_cons, List.find?, hb, if_neg,
        Bool.false_eq_true, ite_false]
      simpa [lookupKernel, afterPatch] using ih

theorem get_python_executable_path_patchedArgv (d : String) :
    get_python_executable_path (patchedArgv d) = some (d ++ "/python.sh") := by
  have h : isPythonEntry (d ++ "/python.sh") = true := by
    simp [isPythonEntry, pyEndsWith_append]
  simp [get_python_executable_path, patchedArgv, List.filter, h]

/-- C3: kernel patching is idempotent.  If a run of
`ipykernel_attach_bashrc` patched the descriptor, a second run on the
resulting registry detects the wrapper script as the interpreter entry and
exits with status 0 without writing any file. -/
theorem claim_C3_patch_idempotent (kernels : List (String × KernelInfo))
    (name : String)
    (h : (ipykernel_attach_bashrc kernels name).step = AttachStep.patchedOk) :
    ipykernel_attach_bashrc (afterPatch kernels name) name =
      ⟨AttachStep.alreadyPatched, some 0, []⟩ := by
  unfold ipykernel_attach_bashrc at h
  cases hL : lookupKernel kernels name with
  | none => rw [hL] at h; cases h
  | some info =>
    rw [hL] at h
    by_cases hdir : info.resourceDirExists
    · by_cases hdesc : info.descriptorExists
      · unfold ipykernel_attach_bashrc
        rw [lookupKernel_afterPatch, hL]
        simp [hdir, hdesc, get_python_executable_path_patchedArgv, pyEndsWith_append]
      · simp [hdir, hdesc] at h
    · simp [hdir] at h

/-- Witness for C3: a concrete registry whose kernel gets patched on the
first run and is detected as already patched on the second. -/
theorem claim_C3_patch_idempotent_witness :
    ipykernel_attach_bashrc
      (afterPatch [("proj", ⟨"/kernels/proj", true, true,
        ["/opt/venv/bin/python3", "-m", "ipykernel_launcher"]⟩)] "proj") "proj" =
      ⟨AttachStep.alreadyPatched, some 0, []⟩ :=
  claim_C3_patch_idempotent
    [("proj", ⟨"/kernels/proj", true, true,
      ["/opt/venv/bin/python3", "-m", "ipykernel_launcher"]⟩)] "proj" (by decide)

/-- C8: the precondition checks of `ipykernel_attach_bashrc` run in strict
order; each failure takes its own distinct branch, exits with status 1 and
writes nothing, regardless of the state that later checks would look at. -/
theorem claim_C8_patch_precondition_order (kernels : List (String × KernelInfo))
    (name : String) :
    (lookupKernel kernels name = none →
      ipykernel_attach_bashrc kernels name = ⟨AttachStep.kernelNotFound, some 1, []⟩) ∧
    (∀ info, lookupKernel kernels name = some info →
      info.resourceDirExists = false →
      ipykernel_attach_bashrc kernels name = ⟨AttachStep.resourceDirMissing, some 1, []⟩) ∧
    (∀ info, lookupKernel kernels name = some info →
      info.resourceDirExists = true → info.descriptorExists = false →
      ipykernel_attach_bashrc kernels name = ⟨AttachStep.descriptorMissing, some 1, []⟩) ∧
    (∀ info, lookupKernel kernels name = some info →
      info.resourceDirExists = true → info.descriptorExists = true →
      get_python_executable_path info.argv = none →
      ipykernel_attach_bashrc kernels name = ⟨AttachStep.noPythonEntry, some 1, []⟩) ∧
    List.Pairwise (· ≠ ·)
      [AttachStep.kernelNotFound, AttachStep.resourceDirMissing,
       AttachStep.descriptorMissing, AttachStep.noPythonEntry] := by
  refine ⟨?_, ?_, ?_, ?_, by decide⟩
  · intro h; simp [ipykernel_attach_bashrc, h]
  · intro info h hdir; simp [ipykernel_attach_bashrc, h, hdir]
  · intro info h hdir hdesc; simp [ipykernel_attach_bashrc, h, hdir, hdesc]
  · intro info h hdir hdesc hpy; simp [ipykernel_attach_bashrc, h, hdir, hdesc, hpy]

/-- Witness for C8: concrete registries hitting each of the four precondition
failures in turn. -/
theorem claim_C8_patch_precondition_order_witness :
    ipykernel_attach_bashrc [] "p" = ⟨AttachStep.kernelNotFound, some 1, []⟩ ∧
    ipykernel_attach_bashrc [("p", ⟨"/k", false, false, []⟩)] "p" =
      ⟨AttachStep.resourceDirMissing, some 1, []⟩ ∧
    ipykernel_attach_bashrc [("p", ⟨"/k", true, false, []⟩)] "p" =
      ⟨AttachStep.descriptorMissing, some 1, []⟩ ∧
    ipykernel_attach_bashrc [("p", ⟨"/k", true, true, ["-m"]⟩)] "p" =
      ⟨AttachStep.noPythonEntry, some 1, []⟩ :=
  ⟨(claim_C8_patch_precondition_order [] "p").1 (by decide),
   (claim_C8_patch_precondition_order [("p", ⟨"/k", false, false, []⟩)] "p").2.1
     ⟨"/k", false, false, []⟩ (by decide) rfl,
   (claim_C8_patch_precondition_order [("p", ⟨"/k", true, false, []⟩)] "p").2.2.1
     ⟨"/k", true, false, []⟩ (by decide) rfl rfl,
   (claim_C8_patch_precondition_order [("p", ⟨"/k", true, true, ["-m"]⟩)] "p").2.2.2.1
     ⟨"/k", true, true, ["-m"]⟩ (by decide) rfl rfl (by decide)⟩

/-! ## Project Locator (`util.py` lines 188-239)

A directory path is a list of components with the deepest component first,
so the filesystem root is `[]`, `Path.parent` is `List.tail`, the candidate
list `[origin] + origin.parents` is `List.tails origin`, and `Path.name` is
the head (the root has name `""`, as in Python).  Each existing directory
carries which marker files it contains and how far their contents parse:
exceptions that `get_project_name_and_root_path` catches are
`KeyError`, `FileNotFoundError` and `json.JSONDecodeError`; a TOML decode
error of `tomli.loads` is not in either `except` clause. -/

/-- Parse status of a `.cruft.json` marker: valid with a recorded project
name, malformed JSON (`json.JSONDecodeError`), or missing one of the keys
`context.cookiecutter.project_name` (`KeyError`). -/
inductive CruftFile where
  | valid (name : String)
  | badJson
  | missingKey
deriving DecidableEq, Repr

/-- Parse status of a `pyproject.toml` marker: valid with a declared name,
malformed TOML (`tomli.TOMLDecodeError`), or missing one of the keys
`tool.poetry.name` (`KeyError`). -/
inductive PyprojectFile where
  | valid (name : String)
  | badToml
  | missingKey
deriving DecidableEq, Repr

/-- Direct children of one existing directory that matter to the locator:
a `.git` entry and the two manifest files with their parse status. -/
structure DirEntry where
  hasGit : Bool
  cruft : Option CruftFile
  pyproject : Option PyprojectFile
deriving DecidableEq, Repr

/-- The marker test of the locator loop: the directory listing intersects
`{.cruft.json, pyproject.toml, .git}`. -/
def hasMarker (d : DirEntry) : Bool :=
  d.hasGit || d.cruft.isSome || d.pyproject.isSome

/-- Result of `get_project_name_and_root_path`: a `(name, root)` pair, the
`(None, None)` pair, or an exception propagating to the caller. -/
inductive LocResult where
  | found (name : String) (root : List String)
  | noneNone
  | raised
deriving DecidableEq, Repr

/-- Python `path.name`: the last path component, `""` for the root. -/
def dirName (p : List String) : String := p.headD ""

/-- Name extraction at the first directory containing a marker: try the
cruft manifest (catching `KeyError`, `FileNotFoundError`,
`json.JSONDecodeError`), then `pyproject.toml` (catching only `KeyError` and
`FileNotFoundError`), then the directory's own name.  A TOML decode error
escapes. -/
def extractAt (d : DirEntry) (p : List String) : LocResult :=
  match d.cruft with
  | some (CruftFile.valid n) => LocResult.found n p
  | _ =>
    match d.pyproject with
    | some (PyprojectFile.valid n) => LocResult.found n p
    | some PyprojectFile.badToml => LocResult.raised
    | _ => LocResult.found (dirName p) p

/-- Whether the directory at `p` exists and contains a marker file. -/
def markedAt (fs : List String → Option DirEntry) (p : List String) : Bool :=
  match fs p with
  | some d => hasMarker d
  | none => false

/-- The `for path in paths` loop of `get_project_name_and_root_path`: stop
at the first candidate containing a marker and extract the name there. -/
def locateLoop (fs : List String → Option DirEntry) : List (List String) → LocResult
  | [] => LocResult.noneNone
  | p :: rest =>
    match fs p with
    | some d => if hasMarker d then extractAt d p else locateLoop fs rest
    | none => locateLoop fs rest

/-- Embedding of `get_project_name_and_root_path` from `util.py`: return the
`(None, None)` pair when the starting directory does not exist, otherwise
walk `[origin] + origin.parents`. -/
def get_project_name_and_root_path (fs : List String → Option DirEntry)
    (origin : List String) : LocResult :=
  if (fs origin).isSome then locateLoop fs origin.tails else LocResult.noneNone

theorem extractAt_root (d : DirEntry) (p : List String) (n : String) (q : List String)
    (h : extractAt d p = LocResult.found n q) : q = p := by
  unfold extractAt at h
  split at h
  · injection h with h1 h2; exact h2.symm
  · split at h
    · injection h with h1 h2; exact h2.symm
    · cases h
    · injection h with h1 h2; exact h2.symm

theorem locateLoop_tails_found (fs : List String → Option DirEntry) :
    ∀ (origin : List String) (n : String) (p : List String),
      locateLoop fs origin.tails = LocResult.found n p →
      p <:+ origin ∧ markedAt fs p = true ∧
        ∀ q, p <:+ q → q <:+ origin → q ≠ p → markedAt fs q = false := by
  intro origin
  induction origin with
  | nil =>
    intro n p h
    have htails : ([] : List String).tails = [[]] := by simp [List.tails]
    rw [htails] at h
    cases hfs : fs [] with
    | none => simp [locateLoop, hfs] at h
    | some d =>
      by_cases hm : hasMarker d
      · simp only [locateLoop, hfs, hm, if_true] at h
        have hp := extractAt_root d [] n p h
        subst hp
        refine ⟨List.nil_suffix, by simp [markedAt, hfs, hm], ?_⟩
        intro q _ hq2 hne
        exact absurd (List.suffix_nil.mp hq2) hne
      · simp [locateLoop, hfs, hm] at h
  | cons a t ih =>
    intro n p h
    rw [List.tails_cons] at h
    cases hfs : fs (a :: t) with
    | some d =>
      by_cases hm : hasMarker d
      · simp only [locateLoop, hfs, hm, if_true] at h
        have hp := extractAt_root d (a :: t) n p h
        subst hp
        refine ⟨List.suffix_refl _, by simp [markedAt, hfs, hm], ?_⟩
        intro q hq1 hq2 hne
        exact absurd ((hq1.eq_of_length
          (le_antisymm hq1.length_le hq2.length_le)).symm) hne
      · simp only [locateLoop, hfs, hm, if_false, Bool.false_eq_true, ite_false] at h
        obtain ⟨h1, h2, h3⟩ := ih n p h
        refine ⟨h1.trans (List.suffix_cons a t), h2, ?_⟩
        intro q hq1 hq2 hne
        rcases List.suffix_cons_iff.mp hq2 with hq | hq
        · subst hq
          simp [markedAt, hfs, hm]
        · exact h3 q hq1 hq hne
    | none =>
      simp only [locateLoop, hfs] at h
      obtain ⟨h1, h2, h3⟩ := ih n p h
      refine ⟨h1.trans (List.suffix_cons a t), h2, ?_⟩
      intro q hq1 hq2 hne
      rcases List.suffix_cons_iff.mp hq2 with hq | hq
      · subst hq
        simp [markedAt, hfs]
      · exact h3 q hq1 hq hne

theorem get_at_marked (fs : List String → Option DirEntry) (origin : List String)
    (d : DirEntry) (hfs : fs origin = some d) (hm : hasMarker d = true) :
    get_project_name_and_root_path fs origin = extractAt d origin := by
  unfold get_project_name_and_root_path
  rw [if_pos (by simp [hfs])]
  cases origin with
  | nil =>
    have htails : ([] : List String).tails = [[]] := by simp [List.tails]
    rw [htails]
    simp [locateLoop, hfs, hm]
  | cons a t =>
    rw [List.tails_cons]
    simp [locateLoop, hfs, hm]

/-- C6: in a directory whose cookiecutter-lock manifest records name `a` and
whose package manifest declares name `b`, the locator returns `a`: the cruft
manifest has priority over `pyproject.toml`. -/
theorem claim_C6_name_priority (fs : List String → Option DirEntry)
    (origin : List String) (d : DirEntry) (a b : String)
    (hfs : fs origin = some d)
    (hc : d.cruft = some (CruftFile.valid a))
    (hp : d.pyproject = some (PyprojectFile.valid b)) :
    get_project_name_and_root_path fs origin = LocResult.found a origin := by
  rw [get_at_marked fs origin d hfs (by simp [hasMarker, hc])]
  simp [extractAt, hc]

/-- Witness for C6 at a concrete directory holding both manifests. -/
theorem claim_C6_name_priority_witness :
    get_project_name_and_root_path
      (fun p => if p = ["proj"] then
        some ⟨false, some (CruftFile.valid "alpha"), some (PyprojectFile.valid "beta")⟩
       else none) ["proj"] = LocResult.found "alpha" ["proj"] :=
  claim_C6_name_priority _ ["proj"]
    ⟨false, some (CruftFile.valid "alpha"), some (PyprojectFile.valid "beta")⟩
    "alpha" "beta" (by decide) rfl rfl

/-- C5 counterexample: a directory whose only parseable marker is a
`pyproject.toml` with malformed TOML makes `get_project_name_and_root_path`
raise (`tomli.TOMLDecodeError` is caught by neither `except` clause), so a
parse error can propagate to the caller. -/
theorem claim_C5_toml_error_counterexample :
    get_project_name_and_root_path
      (fun p => if p = ["proj"] then
        some ⟨false, none, some PyprojectFile.badToml⟩
       else none) ["proj"] = LocResult.raised := by
  decide

/-- C5 amended: malformed JSON, a missing key or a missing file in the
cookiecutter-lock manifest falls through to the package manifest, and a
missing key there falls through to the directory name; but malformed TOML in
the package manifest propagates to the caller instead of falling through. -/
theorem claim_C5_parse_error_fallthrough (fs : List String → Option DirEntry)
    (origin : List String) (d : DirEntry) (n : String)
    (hfs : fs origin = some d)
    (hc : d.cruft = some CruftFile.badJson ∨ d.cruft = some CruftFile.missingKey ∨
      d.cruft = none) :
    (d.pyproject = some (PyprojectFile.valid n) →
      get_project_name_and_root_path fs origin = LocResult.found n origin) ∧
    (d.pyproject = some PyprojectFile.missingKey →
      get_project_name_and_root_path fs origin =
        LocResult.found (dirName origin) origin) ∧
    (d.pyproject = some PyprojectFile.badToml →
      get_project_name_and_root_path fs origin = LocResult.raised) := by
  refine ⟨?_, ?_, ?_⟩ <;> intro hp <;>
    rw [get_at_marked fs origin d hfs (by simp [hasMarker, hp])] <;>
    rcases hc with hc | hc | hc <;> simp [extractAt, hc, hp]

/-- Witness for C5 at a concrete directory: malformed JSON in `.cruft.json`
falls through to the declared `pyproject.toml` name. -/
theorem claim_C5_parse_error_fallthrough_witness :
    get_project_name_and_root_path
      (fun p => if p = ["proj"] then
        some ⟨false, some CruftFile.badJson, some (PyprojectFile.valid "beta")⟩
       else none) ["proj"] = LocResult.found "beta" ["proj"] :=
  (claim_C5_parse_error_fallthrough _ ["proj"]
    ⟨false, some CruftFile.badJson, some (PyprojectFile.valid "beta")⟩
    "beta" (by decide) (Or.inl rfl)).1 rfl

/-- C9: the locator returns the `(None, None)` pair, raises, or returns a
pair with both components set; a returned root is the starting directory or
one of its ancestors, contains a marker file, and no candidate strictly
deeper than it (between the start and the root returned) contains one. -/
theorem claim_C9_locator_invariant (fs : List String → Option DirEntry)
    (origin : List String) :
    (get_project_name_and_root_path fs origin = LocResult.noneNone ∨
     get_project_name_and_root_path fs origin = LocResult.raised ∨
     ∃ n p, get_project_name_and_root_path fs origin = LocResult.found n p) ∧
    (∀ n p, get_project_name_and_root_path fs origin = LocResult.found n p →
      p <:+ origin ∧ markedAt fs p = true ∧
      ∀ q, p <:+ q → q <:+ origin → q ≠ p → markedAt fs q = false) := by
  constructor
  · cases hg : get_project_name_and_root_path fs origin with
    | found n p => exact Or.inr (Or.inr ⟨n, p, rfl⟩)
    | noneNone => exact Or.inl rfl
    | raised => exact Or.inr (Or.inl rfl)
  · intro n p h
    unfold get_project_name_and_root_path at h
    by_cases hex : (fs origin).isSome
    · rw [if_pos hex] at h
      exact locateLoop_tails_found fs origin n p h
    · rw [if_neg hex] at h
      cases h

/-- Example file system for the C9 witness: `/root` carries a `.git` marker,
`/root/a` and `/root/a/b` exist without markers. -/
def exLocFs : List String → Option DirEntry := fun p =>
  if p = ["root"] then some ⟨true, none, none⟩
  else if p = ["b", "a", "root"] ∨ p = ["a", "root"] then some ⟨false, none, none⟩
  else none

/-- Witness for C9: locating from `/root/a/b` stops at `/root`, an ancestor
with a marker, and the deeper candidate `/root/a` is unmarked. -/
theorem claim_C9_locator_invariant_witness :
    (["root"] : List String) <:+ ["b", "a", "root"] ∧
    markedAt exLocFs ["root"] = true ∧
    markedAt exLocFs ["a", "root"] = false := by
  have h := (claim_C9_locator_invariant exLocFs ["b", "a", "root"]).2
    "root" ["root"] (by decide)
  exact ⟨h.1, h.2.1, h.2.2 ["a", "root"] (by decide) (by decide) (by decide)⟩

/-! ## Create Pipeline cleanup (`create/create.py` lines 90-146)

The body of the `try` block of `create_project` (template materialization,
build, git/GitHub steps) is abstracted as its outcome: normal completion, an
`Exception` with a message, a `SystemExit`, or a `KeyboardInterrupt`.
`delete_folder`'s filesystem effect is abstracted by whether the project
directory exists and whether `rmtree` fails with a `shutil.Error`.  Error
logging is recorded as the list of `calling_function` labels passed to
`create_error_log`. -/

/-- Outcome of the `try` body of `create_project`. -/
inductive BodyOutcome where
  | ok
  | exc (msg : String)
  | sysExit
  | kbInterrupt
deriving DecidableEq, Repr

/-- How `create_project` itself finishes: returning normally or letting an
exception / exit escape to its caller. -/
inductive CreateEnd where
  | returned
  | raisedOut
deriving DecidableEq, Repr

/-- Observable behaviour of `create_project` past the validation phase. -/
structure CreateOutcome where
  termination : CreateEnd
  errorLogs : List String
  deletedFolder : Bool
deriving DecidableEq, Repr

/-- Embedding of `delete_folder` from `create/create.py`: delete the
directory if it exists; a `shutil.Error` from `rmtree` is logged under
`delete_dir` and not retried.  Returns the log labels written and whether
the directory was removed. -/
def delete_folder (isDir : Bool) (rmtreeError : Option String) :
    List String × Bool :=
  if isDir then
    match rmtreeError with
    | none => ([], true)
    | some _ => (["delete_dir"], false)
  else ([], false)

/-- Embedding of the `try`/`except` structure of `create_project`: an
`Exception` is logged under `create` and followed by `delete_folder`; a
`SystemExit` or `KeyboardInterrupt` is followed by `delete_folder` without
logging; no handler re-raises, so every branch returns normally. -/
def create_project_attempt (body : BodyOutcome) (isDir : Bool)
    (rmtreeError : Option String) : CreateOutcome :=
  match body with
  | BodyOutcome.ok => ⟨CreateEnd.returned, [], false⟩
  | BodyOutcome.exc _ =>
    let del := delete_folder isDir rmtreeError
    ⟨CreateEnd.returned, "create" :: del.1, del.2⟩
  | BodyOutcome.sysExit =>
    let del := delete_folder isDir rmtreeError
    ⟨CreateEnd.returned, del.1, del.2⟩
  | BodyOutcome.kbInterrupt =>
    let del := delete_folder isDir rmtreeError
    ⟨CreateEnd.returned, del.1, del.2⟩

/-- C7 counterexample: after cleanup the failure is not re-raised (the
handler swallows the exception and `create_project` returns normally), and
on a `SystemExit` nothing at all is logged, contradicting the claim that
every failure is logged and then re-raised. -/
theorem claim_C7_cleanup_counterexample :
    (create_project_attempt (BodyOutcome.exc "boom") true none).termination =
      CreateEnd.returned ∧
    CreateEnd.returned ≠ CreateEnd.raisedOut ∧
    (create_project_attempt BodyOutcome.sysExit true none).errorLogs = [] := by
  decide

/-- C7 amended: every failure after validation triggers best-effort deletion
of the project directory (a `shutil.Error` during deletion is logged under
`delete_dir`, not retried); an `Exception` is additionally logged under
`create` while `SystemExit`/`KeyboardInterrupt` are not logged; and in every
case the failure is suppressed — `create_project` returns normally instead
of re-raising. -/
theorem claim_C7_cleanup_behaviour (msg : String) (isDir : Bool)
    (rmErr : Option String) :
    (∀ body, body ≠ BodyOutcome.ok →
      (create_project_attempt body isDir rmErr).termination = CreateEnd.returned) ∧
    "create" ∈ (create_project_attempt (BodyOutcome.exc msg) isDir rmErr).errorLogs ∧
    ("create" ∉ (create_project_attempt BodyOutcome.sysExit isDir rmErr).errorLogs ∧
     "create" ∉ (create_project_attempt BodyOutcome.kbInterrupt isDir rmErr).errorLogs) ∧
    (∀ body, body ≠ BodyOutcome.ok → isDir = true → rmErr = none →
      (create_project_attempt body isDir rmErr).deletedFolder = true) ∧
    (∀ body e, body ≠ BodyOutcome.ok → isDir = true → rmErr = some e →
      (create_project_attempt body isDir rmErr).deletedFolder = false ∧
      "delete_dir" ∈ (create_project_attempt body isDir rmErr).errorLogs) := by
  refine ⟨?_, ?_, ⟨?_, ?_⟩, ?_, ?_⟩
  · intro body hb
    cases body <;> simp [create_project_attempt]
  · simp [create_project_attempt]
  · cases hrm : rmErr <;> cases isDir <;> simp [create_project_attempt, delete_folder]
  · cases hrm : rmErr <;> cases isDir <;> simp [create_project_attempt, delete_folder]
  · intro body hb hdir hrm
    subst hdir; subst hrm
    cases body <;> simp [create_project_attempt, delete_folder] at hb ⊢
  · intro body e hb hdir hrm
    subst hdir; subst hrm
    cases body <;> simp [create_project_attempt, delete_folder] at hb ⊢

/-- Witness for C7 at a concrete failing build with a failing deletion. -/
theorem claim_C7_cleanup_behaviour_witness :
    (create_project_attempt (BodyOutcome.exc "boom") true (some "locked")).deletedFolder
      = false ∧
    "delete_dir" ∈
      (create_project_attempt (BodyOutcome.exc "boom") true (some "locked")).errorLogs :=
  (claim_C7_cleanup_behaviour "boom" true (some "locked")).2.2.2.2
    (BodyOutcome.exc "boom") "locked" (by decide) rfl rfl
